import Mathlib

/-!
A shallow embedding of the command/state engine of the YouTube command-line
video player (`src/video_player.py` and `src/video_playlist.py`).

Modelling conventions:
* Python `print` calls become an output list of strings; every operation maps a
  `PlayerState` to a `PlayerState × List String` (new state, printed lines).
* The video catalog (`VideoLibrary`, an external read-only lookup service per the
  spec) is a list of `Video` records; `get_video` is first-match lookup by id and
  `get_all_videos` is the list itself.  Flagging mutates the catalog entry.
* Python dicts are insertion-ordered association lists: lookup finds the first
  matching key, assignment to an existing key updates it in place, assignment to
  a fresh key appends at the end, and `pop` removes the first matching entry.
* A `Playlist` stores member video ids in insertion order; the Python object
  stores aliased references into the catalog, which are determined by the id,
  so displaying a member dereferences the catalog.
* The playback fields `_currently_playing_video` (a reference to the playing
  video, or `None`) and `_current_video_status` (`1` playing, `0` paused, or
  `None`) become `Option Video` and `Option Nat`.
-/

structure Video where
  video_id : String
  title : String
  tags : List String
  flag_reason : String
  deriving Repr, DecidableEq

structure Playlist where
  title : String
  videos : List String
  deriving Repr, DecidableEq

structure PlayerState where
  video_library : List Video
  currently_playing_video : Option Video
  current_video_status : Option Nat
  all_playlists : List (String × Playlist)
  deriving Repr, DecidableEq

/-- VideoLibrary.get_video: the catalog is the external read-only lookup
service of the spec (`lookup(id) -> Video | NotFound`), embodied as first-match
lookup by `video_id`. -/
def get_video (lib : List Video) (video_id : String) : Option Video :=
  lib.find? (fun v => v.video_id == video_id)

/-- Mutation of the `flag_reason` field of the catalog object returned by
`get_video`: updates the first entry whose id matches. -/
def setFlag : List Video → String → String → List Video
  | [], _, _ => []
  | v :: rest, id, r =>
    if v.video_id == id then { v with flag_reason := r } :: rest
    else v :: setFlag rest id r

/-- Python `str.lower()`: lower-case each character.  This is `String.toLower`
(which maps `Char.toLower` over the characters) written structurally over the
character list so that concrete instances evaluate. -/
def lowerStr (s : String) : String :=
  String.mk (s.data.map Char.toLower)

/-- Python dict lookup (`d[k]` / `k in d`) on the playlist store. -/
def lookupPl : List (String × Playlist) → String → Option Playlist
  | [], _ => none
  | e :: rest, key => if e.1 == key then some e.2 else lookupPl rest key

/-- Python dict assignment `d[k] = v`: update the first entry with key `k` in
place, or append a fresh entry at the end. -/
def setPl : List (String × Playlist) → String → Playlist → List (String × Playlist)
  | [], key, pl => [(key, pl)]
  | e :: rest, key, pl => if e.1 == key then (key, pl) :: rest else e :: setPl rest key pl

/-- Python dict `d.pop(k)`: remove the first entry with key `k`. -/
def popPl : List (String × Playlist) → String → List (String × Playlist)
  | [], _ => []
  | e :: rest, key => if e.1 == key then rest else e :: popPl rest key

def formatted_video_info (video : Video) : String :=
  let video_title := video.title
  let video_id := video.video_id
  let video_tags := String.intercalate " " video.tags
  s!"{video_title} ({video_id}) [{video_tags}]"

/-- The ` - FLAGGED (reason: …)` suffix appended wherever videos are listed. -/
def flagSuffix (video : Video) : String :=
  if video.flag_reason != "" then
    let r := video.flag_reason
    s!" - FLAGGED (reason: {r})"
  else ""

/-- Lexicographic comparison of character lists by code point: the order
Python (and Lean) uses to compare strings. -/
def charListLe : List Char → List Char → Bool
  | [], _ => true
  | _ :: _, [] => false
  | a :: as, b :: bs =>
    if a.toNat < b.toNat then true
    else if b.toNat < a.toNat then false
    else charListLe as bs

/-- Stable insertion step of `sortByKey`: place `x` before the first element
whose key is not smaller. -/
def insertByKey {α : Type} (key : α → String) (x : α) : List α → List α
  | [] => [x]
  | y :: rest =>
    if charListLe (key x).data (key y).data then x :: y :: rest
    else y :: insertByKey key x rest

/-- Python `sorted(xs, key = ...)` with a string key: a stable sort, modelled
by the (stable) insertion sort. -/
def sortByKey {α : Type} (key : α → String) : List α → List α
  | [] => []
  | x :: rest => insertByKey key x (sortByKey key rest)

/-- Python `sorted(videos, key = lambda x : x.title)`. -/
def sortByTitle (vs : List Video) : List Video :=
  sortByKey Video.title vs

def number_of_videos (st : PlayerState) : PlayerState × List String :=
  let num_videos := st.video_library.length
  (st, [s!"{num_videos} videos in the library"])

def show_all_videos (st : PlayerState) : PlayerState × List String :=
  let all_videos := sortByTitle st.video_library
  (st, "Here\x27s a list of all available videos:" ::
    all_videos.map (fun video => formatted_video_info video ++ flagSuffix video))

def play_video (st : PlayerState) (video_id : String) : PlayerState × List String :=
  match get_video st.video_library video_id with
  | none => (st, ["Cannot play video: Video does not exist"])
  | some video_to_play =>
    if video_to_play.flag_reason != "" then
      let r := video_to_play.flag_reason
      (st, [s!"Cannot play video: Video is currently flagged (reason: {r})"])
    else
      let stop_out : List String :=
        match st.currently_playing_video with
        | some cur =>
          let t := cur.title
          [s!"Stopping video: {t}"]
        | none => []
      let t := video_to_play.title
      ({ st with currently_playing_video := some video_to_play,
                 current_video_status := some 1 },
       stop_out ++ [s!"Playing video: {t}"])

def stop_video (st : PlayerState) : PlayerState × List String :=
  match st.currently_playing_video with
  | none => (st, ["Cannot stop video: No video is currently playing"])
  | some cur =>
    let t := cur.title
    ({ st with currently_playing_video := none, current_video_status := none },
     [s!"Stopping video: {t}"])

/-- `random.choice` over the non-flagged videos is modelled by an arbitrary
index `k` taken modulo the number of eligible videos. -/
def play_random_video (st : PlayerState) (k : Nat) : PlayerState × List String :=
  let non_flagged := st.video_library.filter (fun video => video.flag_reason == "")
  if h : non_flagged.length = 0 then (st, ["No videos available"])
  else
    let video := non_flagged.get ⟨k % non_flagged.length, Nat.mod_lt k (Nat.pos_of_ne_zero h)⟩
    play_video st video.video_id

def pause_video (st : PlayerState) : PlayerState × List String :=
  match st.currently_playing_video with
  | none => (st, ["Cannot pause video: No video is currently playing"])
  | some cur =>
    let t := cur.title
    if st.current_video_status = some 0 then
      (st, [s!"Video already paused: {t}"])
    else
      ({ st with current_video_status := some 0 }, [s!"Pausing video: {t}"])

def continue_video (st : PlayerState) : PlayerState × List String :=
  match st.currently_playing_video with
  | none => (st, ["Cannot continue video: No video is currently playing"])
  | some cur =>
    let t := cur.title
    if st.current_video_status = some 1 then
      (st, ["Cannot continue video: Video is not paused"])
    else
      ({ st with current_video_status := some 1 }, [s!"Continuing video: {t}"])

def show_playing (st : PlayerState) : PlayerState × List String :=
  match st.currently_playing_video with
  | none => (st, ["No video is currently playing"])
  | some cur =>
    let current_video_info := formatted_video_info cur
    let current_video_info :=
      if st.current_video_status = some 0 then current_video_info ++ " - PAUSED"
      else current_video_info
    (st, [s!"Currently playing: {current_video_info}"])

def create_playlist (st : PlayerState) (playlist_name : String) : PlayerState × List String :=
  match lookupPl st.all_playlists (lowerStr playlist_name) with
  | some _ => (st, ["Cannot create playlist: A playlist with the same name already exists."])
  | none =>
    ({ st with all_playlists :=
        st.all_playlists ++ [((lowerStr playlist_name), Playlist.mk playlist_name [])] },
     [s!"Successfully created new playlist: {playlist_name}"])

def add_to_playlist (st : PlayerState) (playlist_name video_id : String) :
    PlayerState × List String :=
  match lookupPl st.all_playlists (lowerStr playlist_name) with
  | none => (st, [s!"Cannot add video to {playlist_name}: Playlist does not exist"])
  | some pl =>
    match get_video st.video_library video_id with
    | none => (st, [s!"Cannot add video to {playlist_name}: Video does not exist"])
    | some video_to_add =>
      if video_to_add.flag_reason != "" then
        let r := video_to_add.flag_reason
        (st, [s!"Cannot add video to {playlist_name}: Video is currently flagged (reason: {r})"])
      else if video_id ∈ pl.videos then
        (st, [s!"Cannot add video to {playlist_name}: Video already added"])
      else
        let t := video_to_add.title
        let newPl := { pl with videos := pl.videos ++ [video_id] }
        ({ st with all_playlists := setPl st.all_playlists (lowerStr playlist_name) newPl },
         [s!"Added video to {playlist_name}: {t}"])

def show_all_playlists (st : PlayerState) : PlayerState × List String :=
  if st.all_playlists = [] then (st, ["No playlists exist yet"])
  else
    (st, "Showing all playlists:" ::
      (sortByKey Playlist.title (st.all_playlists.map Prod.snd)).map
        (fun playlist =>
          let t := playlist.title
          s!"  {t}"))

def show_playlist (st : PlayerState) (playlist_name : String) : PlayerState × List String :=
  match lookupPl st.all_playlists (lowerStr playlist_name) with
  | none => (st, [s!"Cannot show playlist {playlist_name}: Playlist does not exist"])
  | some required_playlist =>
    let header := s!"Showing playlist: {playlist_name}"
    if required_playlist.videos = [] then
      (st, [header, "  No videos here yet"])
    else
      (st, header :: required_playlist.videos.filterMap (fun vid =>
        (get_video st.video_library vid).map
          (fun video => formatted_video_info video ++ flagSuffix video)))

def remove_from_playlist (st : PlayerState) (playlist_name video_id : String) :
    PlayerState × List String :=
  match lookupPl st.all_playlists (lowerStr playlist_name) with
  | none => (st, [s!"Cannot remove video from {playlist_name}: Playlist does not exist"])
  | some pl =>
    match get_video st.video_library video_id with
    | none => (st, [s!"Cannot remove video from {playlist_name}: Video does not exist"])
    | some video_to_add =>
      if video_id ∉ pl.videos then
        (st, [s!"Cannot remove video from {playlist_name}: Video is not in playlist"])
      else
        let t := video_to_add.title
        let newPl := { pl with videos := pl.videos.erase video_id }
        ({ st with all_playlists := setPl st.all_playlists (lowerStr playlist_name) newPl },
         [s!"Removed video from {playlist_name}: {t}"])

def clear_playlist (st : PlayerState) (playlist_name : String) : PlayerState × List String :=
  match lookupPl st.all_playlists (lowerStr playlist_name) with
  | none => (st, [s!"Cannot clear playlist {playlist_name}: Playlist does not exist"])
  | some pl =>
    let newPl := { pl with videos := ([] : List String) }
    ({ st with all_playlists := setPl st.all_playlists (lowerStr playlist_name) newPl },
     [s!"Successfully removed all videos from {playlist_name}"])

def delete_playlist (st : PlayerState) (playlist_name : String) : PlayerState × List String :=
  match lookupPl st.all_playlists (lowerStr playlist_name) with
  | none => (st, [s!"Cannot delete playlist {playlist_name}: Playlist does not exist"])
  | some _ =>
    ({ st with all_playlists := popPl st.all_playlists (lowerStr playlist_name) },
     [s!"Deleted playlist: {playlist_name}"])

/-- Python substring containment `needle in hay` on character lists: `needle`
occurs contiguously somewhere in `hay` (the empty needle always does). -/
def containsSub (needle : List Char) : List Char → Bool
  | [] => needle.isEmpty
  | c :: rest => needle.isPrefixOf (c :: rest) || containsSub needle rest

/-- Title match of `search_videos`: Python
`search_term.lower() in video.title.lower()` (case-insensitive substring). -/
def titleMatches (search_term : String) (video : Video) : Bool :=
  containsSub (lowerStr search_term).toList (lowerStr video.title).toList

/-- Tag match of `search_videos_tag`: the loop over `video.tags` with an early
break is exactly an existence check. -/
def tagMatches (video_tag : String) (video : Video) : Bool :=
  video.tags.any (fun tag => lowerStr video_tag == lowerStr tag)

/-- The filter loop of `search_videos`. -/
def searchMatches (st : PlayerState) (search_term : String) : List Video :=
  st.video_library.filter (fun video => video.flag_reason == "" && titleMatches search_term video)

/-- The filter loop of `search_videos_tag`. -/
def searchTagMatches (st : PlayerState) (video_tag : String) : List Video :=
  st.video_library.filter (fun video => video.flag_reason == "" && tagMatches video_tag video)

/-- Decimal parse of a line: `some n` iff the string is non-empty and all
digits (the semantics of `String.toNat?`, written structurally over the
character list). -/
def toNatDigits (s : String) : Option Nat :=
  if s.data ≠ [] ∧ s.data.all Char.isDigit then
    some (s.data.foldl (fun n c => n * 10 + (c.toNat - 48)) 0)
  else none

/-- Modelled from the spec: `CommandParser.process_command` (command_parser.py
is not among the source files).  Per the spec, the post-search input line is a
selection: a valid positive integer in `[1, N]` plays the corresponding result
via `play_video`, and anything else is silently treated as no selection. -/
def process_command (st : PlayerState) (command : String) (matching_videos : List Video) :
    PlayerState × List String :=
  match toNatDigits command with
  | none => (st, [])
  | some k =>
    if k = 0 then (st, [])
    else
      match matching_videos[k - 1]? with
      | some video => play_video st video.video_id
      | none => (st, [])

def numberLines (vs : List Video) : List String :=
  vs.enum.map (fun p =>
    let n := p.1 + 1
    let info := formatted_video_info p.2
    s!"{n}) {info}")

def promptLine : String :=
  "Would you like to play any of the above? If yes, specify the number of the video.\n If your answer is not a valid number, we will assume it\x27s a no."

/-- The numbered listing plus prompt emitted when a search has results. -/
def searchListing (query : String) (vs : List Video) : List String :=
  s!"Here are the results for {query}:" :: numberLines vs ++ [promptLine]

/-- `search_videos`, with the single line read by `input()` passed as
`inputLine`.  Note: as in the source, the sorted copy is bound to the
misspelled `maching_videos` and never used — the listing iterates the
unsorted `matching_videos`. -/
def search_videos (st : PlayerState) (search_term inputLine : String) :
    PlayerState × List String :=
  let matching_videos := searchMatches st search_term
  if matching_videos.length = 0 then
    (st, [s!"No search results for {search_term}"])
  else
    let maching_videos := sortByTitle matching_videos
    let after := process_command st inputLine matching_videos
    (after.1, searchListing search_term matching_videos ++ after.2)

/-- `search_videos_tag`, with the `input()` line passed as `inputLine`. -/
def search_videos_tag (st : PlayerState) (video_tag inputLine : String) :
    PlayerState × List String :=
  let matching_videos := searchTagMatches st video_tag
  if matching_videos.length = 0 then
    (st, [s!"No search results for {video_tag}"])
  else
    let maching_videos := sortByTitle matching_videos
    let after := process_command st inputLine matching_videos
    (after.1, searchListing video_tag matching_videos ++ after.2)

def flag_video (st : PlayerState) (video_id : String) (flag_reason : String) :
    PlayerState × List String :=
  match get_video st.video_library video_id with
  | none => (st, ["Cannot flag video: Video does not exist"])
  | some video_to_flag =>
    if video_to_flag.flag_reason != "" then
      (st, ["Cannot flag video: Video is already flagged"])
    else
      let stopped :=
        match st.currently_playing_video with
        | some cur => if video_id == cur.video_id then stop_video st else (st, [])
        | none => (st, [])
      let st1 := stopped.1
      let newReason := if flag_reason != "" then flag_reason else "Not supplied"
      let t := video_to_flag.title
      ({ st1 with video_library := setFlag st1.video_library video_id newReason },
       stopped.2 ++ [s!"Successfully flagged video: {t} (reason: {newReason})"])

def allow_video (st : PlayerState) (video_id : String) : PlayerState × List String :=
  match get_video st.video_library video_id with
  | none => (st, ["Cannot remove flag from video: Video does not exist"])
  | some video_to_unflag =>
    if video_to_unflag.flag_reason == "" then
      (st, ["Cannot remove flag from video: Video is not flagged"])
    else
      let t := video_to_unflag.title
      ({ st with video_library := setFlag st.video_library video_id "" },
       [s!"Successfully removed flag from video: {t}"])

/-- One command of the engine, with its arguments (for random play, the random
draw; for the search commands, the line read by `input()`). -/
inductive Op where
  | play (video_id : String)
  | stop
  | playRandom (k : Nat)
  | pause
  | continueV
  | showPlaying
  | createPlaylist (name : String)
  | addToPlaylist (name video_id : String)
  | showAllPlaylists
  | showPlaylist (name : String)
  | removeFromPlaylist (name video_id : String)
  | clearPlaylist (name : String)
  | deletePlaylist (name : String)
  | searchVideos (term inputLine : String)
  | searchVideosTag (tag inputLine : String)
  | flagVideo (video_id reason : String)
  | allowVideo (video_id : String)
  | showAllVideos
  | numberOfVideos
  deriving Repr, DecidableEq

def applyOp (op : Op) (st : PlayerState) : PlayerState × List String :=
  match op with
  | Op.play video_id => play_video st video_id
  | Op.stop => stop_video st
  | Op.playRandom k => play_random_video st k
  | Op.pause => pause_video st
  | Op.continueV => continue_video st
  | Op.showPlaying => show_playing st
  | Op.createPlaylist name => create_playlist st name
  | Op.addToPlaylist name video_id => add_to_playlist st name video_id
  | Op.showAllPlaylists => show_all_playlists st
  | Op.showPlaylist name => show_playlist st name
  | Op.removeFromPlaylist name video_id => remove_from_playlist st name video_id
  | Op.clearPlaylist name => clear_playlist st name
  | Op.deletePlaylist name => delete_playlist st name
  | Op.searchVideos term inputLine => search_videos st term inputLine
  | Op.searchVideosTag tag inputLine => search_videos_tag st tag inputLine
  | Op.flagVideo video_id reason => flag_video st video_id reason
  | Op.allowVideo video_id => allow_video st video_id
  | Op.showAllVideos => show_all_videos st
  | Op.numberOfVideos => number_of_videos st

/-- The playback invariant: the pause/play status is set exactly when a video
is playing, and then it is either `1` (PLAYING) or `0` (PAUSED). -/
def PlaybackInv (st : PlayerState) : Prop :=
  (st.currently_playing_video = none ∧ st.current_video_status = none) ∨
  (st.currently_playing_video ≠ none ∧
    (st.current_video_status = some 1 ∨ st.current_video_status = some 0))

instance (st : PlayerState) : Decidable (PlaybackInv st) := by
  unfold PlaybackInv
  infer_instance

/-- `n` consecutive `pause_video` calls (state only). -/
def pauseTimes (st : PlayerState) : Nat → PlayerState
  | 0 => st
  | n + 1 => (pause_video (pauseTimes st n)).1

def videoAlpha : Video := ⟨"a", "Alpha", ["music"], ""⟩

def videoBravo : Video := ⟨"b", "Bravo", ["music"], ""⟩

/-- The EMPTY session state over an empty catalog. -/
def emptyState : PlayerState := ⟨[], none, none, []⟩

/-- A catalog whose enumeration order disagrees with title order, with the
second video paused. -/
def stPlaying : PlayerState := ⟨[videoBravo, videoAlpha], some videoBravo, some 0, []⟩

/-- The same two-video catalog, nothing playing. -/
def stTwoVideos : PlayerState := ⟨[videoBravo, videoAlpha], none, none, []⟩

/-- A store holding playlist "p" that already contains video "a". -/
def stPlaylist : PlayerState := ⟨[videoAlpha], none, none, [("p", ⟨"p", ["a"]⟩)]⟩

/-- Like `stPlaylist`, but the catalog also has video "b" (not a member). -/
def stPlaylist2 : PlayerState := ⟨[videoBravo, videoAlpha], none, none, [("p", ⟨"p", ["a"]⟩)]⟩

/-- C1: if `play_video` fails — the catalog lookup returns nothing, or the
video is flagged — the playback state (current video and status) is exactly
the same after the call as before. -/
theorem play_failure_frame (st : PlayerState) (video_id : String)
    (h : get_video st.video_library video_id = none ∨
      ∃ vid, get_video st.video_library video_id = some vid ∧ vid.flag_reason ≠ "") :
    (play_video st video_id).1.currently_playing_video = st.currently_playing_video ∧
    (play_video st video_id).1.current_video_status = st.current_video_status := by
  rcases h with h | ⟨vid, hget, hflag⟩
  · simp [play_video, h]
  · simp [play_video, hget, hflag]

/-- Witness for C1: `play("missing_id")` from the EMPTY state leaves the state
EMPTY. -/
theorem play_failure_frame_witness :
    get_video emptyState.video_library "missing_id" = none ∧
    (play_video emptyState "missing_id").1.currently_playing_video = none ∧
    (play_video emptyState "missing_id").1.current_video_status = none :=
  ⟨by decide, play_failure_frame emptyState "missing_id" (Or.inl (by decide))⟩

/-- C2: playing an existing, unflagged video always succeeds: any previously
playing video (playing or paused) is implicitly stopped (a stop notice is
emitted first), and afterwards the playback state holds exactly the requested
video with status PLAYING (`some 1`); there is no special case for replaying
the current id. -/
theorem play_video_success (st : PlayerState) (video_id : String) (vid : Video)
    (hget : get_video st.video_library video_id = some vid)
    (hflag : vid.flag_reason = "") :
    (play_video st video_id).1.currently_playing_video = some vid ∧
    (play_video st video_id).1.current_video_status = some 1 ∧
    vid.video_id = video_id ∧
    (play_video st video_id).2 =
      (match st.currently_playing_video with
        | some cur =>
          let t := cur.title
          [s!"Stopping video: {t}"]
        | none => []) ++
      (let t := vid.title
       [s!"Playing video: {t}"]) := by
  have hid : vid.video_id = video_id := by
    have hfind : List.find? (fun v => v.video_id == video_id) st.video_library = some vid := by
      simpa [get_video] using hget
    simpa using List.find?_some hfind
  refine ⟨?_, ?_, hid, ?_⟩ <;> simp [play_video, hget, hflag]

/-- Witness for C2: playing "a" while "b" is paused stops "b" and starts "a"
in status PLAYING. -/
theorem play_video_success_witness :
    get_video stPlaying.video_library "a" = some videoAlpha ∧
    videoAlpha.flag_reason = "" ∧
    (play_video stPlaying "a").1.currently_playing_video = some videoAlpha ∧
    (play_video stPlaying "a").1.current_video_status = some 1 ∧
    (play_video stPlaying "a").2 = ["Stopping video: Bravo", "Playing video: Alpha"] := by
  have h := play_video_success stPlaying "a" videoAlpha (by decide) rfl
  exact ⟨by decide, rfl, h.1, h.2.1, by rw [h.2.2.2]; rfl⟩

/-- Appending a fresh key to the store makes it visible to lookup. -/
theorem lookupPl_append (pls : List (String × Playlist)) (key : String) (pl : Playlist)
    (h : lookupPl pls key = none) :
    lookupPl (pls ++ [(key, pl)]) key = some pl := by
  induction pls with
  | nil => simp [lookupPl]
  | cons e rest ih =>
    unfold lookupPl at h ⊢
    by_cases he : (e.1 == key) = true
    · simp [he] at h
    · simp only [he, if_neg] at h ⊢
      simp only [List.cons_append]
      simp [he]
      exact ih h

/-- C3 counterexample: after creating "Foo", `show_playlist("FOO")` prints the
caller-supplied casing "FOO" in its header, not the originally supplied title
"Foo", refuting the display part of the claim. -/
theorem show_playlist_casing_cex :
    (create_playlist emptyState "Foo").2 = ["Successfully created new playlist: Foo"] ∧
    (show_playlist (create_playlist emptyState "Foo").1 "FOO").2 =
      ["Showing playlist: FOO", "  No videos here yet"] ∧
    ("Showing playlist: FOO" : String) ≠ "Showing playlist: Foo" := by
  decide

/-- Creating a playlist whose lowercased name is free appends it to the store
under the lowercased key, keeping the given display title. -/
theorem create_playlist_fresh (st : PlayerState) (name : String)
    (h : lookupPl st.all_playlists (lowerStr name) = none) :
    create_playlist st name =
      ({ st with all_playlists := st.all_playlists ++ [(lowerStr name, Playlist.mk name [])] },
       [s!"Successfully created new playlist: {name}"]) := by
  unfold create_playlist
  rw [h]

/-- Creating a playlist whose lowercased name is taken fails and changes
nothing. -/
theorem create_playlist_exists (st : PlayerState) (name : String) (pl : Playlist)
    (h : lookupPl st.all_playlists (lowerStr name) = some pl) :
    create_playlist st name =
      (st, ["Cannot create playlist: A playlist with the same name already exists."]) := by
  unfold create_playlist
  rw [h]

/-- Showing an empty playlist prints a header with the caller-supplied name and
the empty marker. -/
theorem show_playlist_found_empty (st : PlayerState) (name : String) (pl : Playlist)
    (h : lookupPl st.all_playlists (lowerStr name) = some pl) (hv : pl.videos = []) :
    show_playlist st name = (st, [s!"Showing playlist: {name}", "  No videos here yet"]) := by
  unfold show_playlist
  rw [h]
  simp [hv]

/-- C3 (amended): playlist names are case-insensitive for existence checks and
the creation casing is what the store records as the title, but
`show_playlist` echoes the caller's casing in its header: after
`create_playlist("Foo")` succeeds, `create_playlist("foo")` fails with the
already-exists error and changes nothing, `show_playlist("FOO")` finds the
playlist and prints the header with "FOO", while the stored playlist keeps
the title "Foo". -/
theorem playlist_name_case_spec (st : PlayerState)
    (h : lookupPl st.all_playlists "foo" = none) :
    (create_playlist st "Foo").2 = ["Successfully created new playlist: Foo"] ∧
    create_playlist (create_playlist st "Foo").1 "foo" =
      ((create_playlist st "Foo").1,
       ["Cannot create playlist: A playlist with the same name already exists."]) ∧
    (show_playlist (create_playlist st "Foo").1 "FOO").2.head? =
      some "Showing playlist: FOO" ∧
    lookupPl (create_playlist st "Foo").1.all_playlists "foo" = some (Playlist.mk "Foo" []) := by
  have hFoo : lowerStr "Foo" = "foo" := by decide
  have hFOO : lowerStr "FOO" = "foo" := by decide
  have hfoo : lowerStr "foo" = "foo" := by decide
  have h1 := create_playlist_fresh st "Foo" (by rw [hFoo]; exact h)
  rw [hFoo] at h1
  have hlook : lookupPl (create_playlist st "Foo").1.all_playlists "foo" =
      some (Playlist.mk "Foo" []) := by
    rw [h1]
    exact lookupPl_append st.all_playlists "foo" (Playlist.mk "Foo" []) h
  refine ⟨by rw [h1]; rfl, ?_, ?_, hlook⟩
  · exact create_playlist_exists _ "foo" (Playlist.mk "Foo" []) (by rw [hfoo]; exact hlook)
  · have hs := show_playlist_found_empty (create_playlist st "Foo").1 "FOO"
      (Playlist.mk "Foo" []) (by rw [hFOO]; exact hlook) rfl
    rw [hs]
    rfl

/-- Witness for C3 (amended): from the empty store, the create/create/show
scenario behaves as stated. -/
theorem playlist_name_case_spec_witness :
    lookupPl emptyState.all_playlists "foo" = none ∧
    (create_playlist emptyState "Foo").2 = ["Successfully created new playlist: Foo"] ∧
    create_playlist (create_playlist emptyState "Foo").1 "foo" =
      ((create_playlist emptyState "Foo").1,
       ["Cannot create playlist: A playlist with the same name already exists."]) ∧
    (show_playlist (create_playlist emptyState "Foo").1 "FOO").2.head? =
      some "Showing playlist: FOO" ∧
    lookupPl (create_playlist emptyState "Foo").1.all_playlists "foo" =
      some (Playlist.mk "Foo" []) := by
  have h := playlist_name_case_spec emptyState (by decide)
  exact ⟨by decide, h.1, h.2.1, h.2.2.1, h.2.2.2⟩

/-- Dict assignment makes the assigned value visible to lookup. -/
theorem lookupPl_setPl (pls : List (String × Playlist)) (key : String) (pl : Playlist) :
    lookupPl (setPl pls key pl) key = some pl := by
  induction pls with
  | nil => simp [setPl, lookupPl]
  | cons e rest ih =>
    by_cases he : (e.1 == key) = true
    · simp [setPl, he, lookupPl]
    · simp [setPl, he, lookupPl, ih]

/-- Two successive dict assignments to the same key collapse to the last. -/
theorem setPl_setPl (pls : List (String × Playlist)) (key : String) (a b : Playlist) :
    setPl (setPl pls key a) key b = setPl pls key b := by
  induction pls with
  | nil => simp [setPl]
  | cons e rest ih =>
    by_cases he : (e.1 == key) = true
    · simp [setPl, he]
    · simp [setPl, he, ih]

/-- Assigning back the value lookup already finds leaves the store unchanged. -/
theorem setPl_lookup_self (pls : List (String × Playlist)) (key : String) (pl : Playlist)
    (h : lookupPl pls key = some pl) : setPl pls key pl = pls := by
  induction pls with
  | nil => simp [lookupPl] at h
  | cons e rest ih =>
    obtain ⟨k0, p0⟩ := e
    by_cases he : (k0 == key) = true
    · have hk : k0 = key := by simpa using he
      have hp : p0 = pl := by simpa [lookupPl, he] using h
      subst hk
      subst hp
      simp [setPl]
    · have h' : lookupPl rest key = some pl := by simpa [lookupPl, he] using h
      simp [setPl, he, ih h']

/-- Erasing a just-appended element that was not present before restores the
list. -/
theorem erase_append_not_mem (l : List String) (v : String) (h : v ∉ l) :
    (l ++ [v]).erase v = l := by
  rw [List.erase_append_right _ h]
  simp

/-- Field-wise extensionality for `PlayerState`. -/
theorem playerState_ext (a b : PlayerState)
    (h1 : a.video_library = b.video_library)
    (h2 : a.currently_playing_video = b.currently_playing_video)
    (h3 : a.current_video_status = b.current_video_status)
    (h4 : a.all_playlists = b.all_playlists) : a = b := by
  cases a
  cases b
  simp_all

/-- Successful branch of `add_to_playlist`: appends the id to the playlist. -/
theorem add_to_playlist_new (st : PlayerState) (playlist_name video_id : String)
    (pl : Playlist) (w : Video)
    (hpl : lookupPl st.all_playlists (lowerStr playlist_name) = some pl)
    (hg : get_video st.video_library video_id = some w)
    (hw : (w.flag_reason != "") = false)
    (hm : video_id ∉ pl.videos) :
    (add_to_playlist st playlist_name video_id).1 =
      { st with all_playlists := setPl st.all_playlists (lowerStr playlist_name) (Playlist.mk pl.title (pl.videos ++ [video_id])) } := by
  unfold add_to_playlist
  rw [hpl, hg]
  simp [hw, hm]

/-- Successful branch of `remove_from_playlist`: erases the id. -/
theorem remove_from_playlist_mem (st : PlayerState) (playlist_name video_id : String)
    (pl : Playlist) (w : Video)
    (hpl : lookupPl st.all_playlists (lowerStr playlist_name) = some pl)
    (hg : get_video st.video_library video_id = some w)
    (hm : video_id ∈ pl.videos) :
    (remove_from_playlist st playlist_name video_id).1 =
      { st with all_playlists := setPl st.all_playlists (lowerStr playlist_name) (Playlist.mk pl.title (pl.videos.erase video_id)) } := by
  unfold remove_from_playlist
  rw [hpl, hg]
  simp [hm]

/-- C6 counterexample: for a playlist that already contains the video, the
add/remove pair does not restore the prior membership — the add is rejected as
a duplicate, yet the remove still deletes the member. -/
theorem add_remove_cex :
    (remove_from_playlist (add_to_playlist stPlaylist "p" "a").1 "p" "a").1 ≠ stPlaylist ∧
    lookupPl
      (remove_from_playlist (add_to_playlist stPlaylist "p" "a").1 "p" "a").1.all_playlists
      "p" = some (Playlist.mk "p" []) ∧
    lookupPl stPlaylist.all_playlists "p" = some (Playlist.mk "p" ["a"]) := by
  decide

/-- C6 (amended): for every playlist in the store and every video id that is
not already one of its members, `add_to_playlist` followed by
`remove_from_playlist` restores the whole state exactly (in particular the
playlist's membership list, order included). -/
theorem add_remove_roundtrip (st : PlayerState) (playlist_name video_id : String)
    (pl : Playlist)
    (hpl : lookupPl st.all_playlists (lowerStr playlist_name) = some pl)
    (hv : video_id ∉ pl.videos) :
    (remove_from_playlist (add_to_playlist st playlist_name video_id).1
      playlist_name video_id).1 = st := by
  cases hg : get_video st.video_library video_id with
  | none =>
    have ha : (add_to_playlist st playlist_name video_id).1 = st := by
      unfold add_to_playlist
      rw [hpl, hg]
    rw [ha]
    unfold remove_from_playlist
    rw [hpl, hg]
  | some w =>
    by_cases hw : (w.flag_reason != "") = true
    · have ha : (add_to_playlist st playlist_name video_id).1 = st := by
        unfold add_to_playlist
        rw [hpl, hg]
        simp [hw]
      rw [ha]
      unfold remove_from_playlist
      rw [hpl, hg]
      simp [hv]
    · have hwf : (w.flag_reason != "") = false := by simpa using hw
      have ha := add_to_playlist_new st playlist_name video_id pl w hpl hg hwf hv
      rw [ha]
      rw [remove_from_playlist_mem ({ st with all_playlists := setPl st.all_playlists (lowerStr playlist_name) (Playlist.mk pl.title (pl.videos ++ [video_id])) }) playlist_name video_id (Playlist.mk pl.title (pl.videos ++ [video_id])) w (lookupPl_setPl st.all_playlists (lowerStr playlist_name) (Playlist.mk pl.title (pl.videos ++ [video_id]))) hg (by simp)]
      apply playerState_ext
      · rfl
      · rfl
      · rfl
      · show setPl (setPl st.all_playlists (lowerStr playlist_name) (Playlist.mk pl.title (pl.videos ++ [video_id]))) (lowerStr playlist_name) (Playlist.mk pl.title ((pl.videos ++ [video_id]).erase video_id)) = st.all_playlists
        rw [setPl_setPl, erase_append_not_mem pl.videos video_id hv]
        exact setPl_lookup_self st.all_playlists (lowerStr playlist_name) pl hpl

/-- Witness for C6 (amended): adding then removing "b" (present in the catalog,
not yet a member) from playlist "p" restores the state exactly. -/
theorem add_remove_roundtrip_witness :
    lookupPl stPlaylist2.all_playlists (lowerStr "p") = some (Playlist.mk "p" ["a"]) ∧
    ("b" ∉ (Playlist.mk "p" ["a"]).videos) ∧
    (remove_from_playlist (add_to_playlist stPlaylist2 "p" "b").1 "p" "b").1 = stPlaylist2 := by
  have h := add_remove_roundtrip stPlaylist2 "p" "b" (Playlist.mk "p" ["a"])
    (by decide) (by decide)
  exact ⟨by decide, by decide, h⟩

/-- Pausing a state whose video is set yields the same video with status
PAUSED (`some 0`), whether or not it was already paused. -/
theorem pause_video_sets_paused (st : PlayerState) (vid : Video)
    (h : st.currently_playing_video = some vid) :
    (pause_video st).1.currently_playing_video = some vid ∧
    (pause_video st).1.current_video_status = some 0 := by
  unfold pause_video
  rw [h]
  by_cases hs : st.current_video_status = some 0
  · simp [hs, h]
  · simp [hs]

/-- Pausing an already-paused state signals "already paused" and changes
nothing. -/
theorem pause_video_already_paused (st : PlayerState) (vid : Video)
    (h : st.currently_playing_video = some vid)
    (hs : st.current_video_status = some 0) :
    pause_video st = (st, (let t := vid.title
      [s!"Video already paused: {t}"])) := by
  unfold pause_video
  rw [h]
  simp [hs]

/-- C7: pause is idempotent in effect — starting from any state with a video
set, the state after `n ≥ 1` consecutive `pause_video` calls equals the state
after the first call, and every call after the first emits exactly the
"already paused" signal. -/
theorem pause_idempotent (st : PlayerState) (vid : Video)
    (h : st.currently_playing_video = some vid) :
    (∀ n, 1 ≤ n → pauseTimes st n = pauseTimes st 1) ∧
    (∀ n, 1 ≤ n → (pause_video (pauseTimes st n)).2 =
      (let t := vid.title
       [s!"Video already paused: {t}"])) := by
  have h1 := pause_video_sets_paused st vid h
  have hfix : pause_video (pauseTimes st 1) =
      (pauseTimes st 1, (let t := vid.title
        [s!"Video already paused: {t}"])) := by
    exact pause_video_already_paused (pauseTimes st 1) vid h1.1 h1.2
  have hstate : ∀ n, 1 ≤ n → pauseTimes st n = pauseTimes st 1 := by
    intro n hn
    induction n with
    | zero => omega
    | succ m ih =>
      by_cases hm : 1 ≤ m
      · show (pause_video (pauseTimes st m)).1 = pauseTimes st 1
        rw [ih hm, hfix]
      · have hm0 : m = 0 := by omega
        subst hm0
        rfl
  refine ⟨hstate, ?_⟩
  intro n hn
  rw [hstate n hn, hfix]

/-- Witness for C7: with "b" paused, three pauses equal one pause and the
second and third calls emit the "already paused" signal. -/
theorem pause_idempotent_witness :
    stPlaying.currently_playing_video = some videoBravo ∧
    pauseTimes stPlaying 3 = pauseTimes stPlaying 1 ∧
    (pause_video (pauseTimes stPlaying 2)).2 = ["Video already paused: Bravo"] := by
  have h := pause_idempotent stPlaying videoBravo rfl
  refine ⟨rfl, h.1 3 (by omega), ?_⟩
  rw [h.2 2 (by omega)]
  rfl

/-- Looking up the flagged id after `setFlag` returns the same video with the
new flag reason. -/
theorem get_video_setFlag (lib : List Video) (id r : String) :
    get_video (setFlag lib id r) id =
      (get_video lib id).map (fun v => { v with flag_reason := r }) := by
  induction lib with
  | nil => simp [setFlag, get_video]
  | cons v rest ih =>
    by_cases hv : (v.video_id == id) = true
    · simp [setFlag, hv, get_video, List.find?_cons]
    · simp [setFlag, hv, get_video, List.find?_cons] at ih ⊢
      exact ih

/-- C8: flagging an existing, unflagged video succeeds: the catalog entry's
flag_reason becomes the given reason, or the sentinel "Not supplied" when the
reason is empty; and if the video was the one currently playing (any status),
playback is force-stopped, so `show_playing` afterwards reports that nothing
is playing. -/
theorem flag_playing_spec (st : PlayerState) (video_id flag_reason : String) (vid : Video)
    (hget : get_video st.video_library video_id = some vid)
    (hflag : vid.flag_reason = "") :
    get_video (flag_video st video_id flag_reason).1.video_library video_id =
      some { vid with flag_reason := if flag_reason != "" then flag_reason else "Not supplied" } ∧
    (∀ cur, st.currently_playing_video = some cur → cur.video_id = video_id →
      (flag_video st video_id flag_reason).1.currently_playing_video = none ∧
      (flag_video st video_id flag_reason).1.current_video_status = none ∧
      (show_playing (flag_video st video_id flag_reason).1).2 =
        ["No video is currently playing"]) := by
  cases hc : st.currently_playing_video with
  | none =>
    have hst : (flag_video st video_id flag_reason).1 =
        { st with video_library := setFlag st.video_library video_id (if flag_reason != "" then flag_reason else "Not supplied") } := by
      unfold flag_video
      rw [hget]
      simp [hflag, hc]
    constructor
    · rw [hst]
      show get_video (setFlag st.video_library video_id (if flag_reason != "" then flag_reason else "Not supplied")) video_id = _
      rw [get_video_setFlag, hget]
      rfl
    · intro cur hcur
      simp [hc] at hcur
  | some cur0 =>
    by_cases hb : (video_id == cur0.video_id) = true
    · have hst : (flag_video st video_id flag_reason).1 =
          { st with currently_playing_video := none, current_video_status := none, video_library := setFlag st.video_library video_id (if flag_reason != "" then flag_reason else "Not supplied") } := by
        unfold flag_video
        rw [hget]
        simp [hflag, hc, hb, stop_video]
      refine ⟨?_, ?_⟩
      · rw [hst]
        show get_video (setFlag st.video_library video_id (if flag_reason != "" then flag_reason else "Not supplied")) video_id = _
        rw [get_video_setFlag, hget]
        rfl
      · intro cur hcur hid
        rw [hst]
        exact ⟨rfl, rfl, by simp [show_playing]⟩
    · have hst : (flag_video st video_id flag_reason).1 =
          { st with video_library := setFlag st.video_library video_id (if flag_reason != "" then flag_reason else "Not supplied") } := by
        unfold flag_video
        rw [hget]
        simp [hflag, hc, hb]
      refine ⟨?_, ?_⟩
      · rw [hst]
        show get_video (setFlag st.video_library video_id (if flag_reason != "" then flag_reason else "Not supplied")) video_id = _
        rw [get_video_setFlag, hget]
        rfl
      · intro cur hcur hid
        injection hcur with hcur0
        subst hcur0
        exact absurd (by simp [hid]) hb

/-- Witness for C8: flagging currently-playing "b" with reason "dirty" stops
playback, `show_playing` reports nothing playing, and "b" carries the reason. -/
theorem flag_playing_spec_witness :
    get_video stPlaying.video_library "b" = some videoBravo ∧
    videoBravo.flag_reason = "" ∧
    stPlaying.currently_playing_video = some videoBravo ∧
    get_video (flag_video stPlaying "b" "dirty").1.video_library "b" =
      some (Video.mk "b" "Bravo" ["music"] "dirty") ∧
    (flag_video stPlaying "b" "dirty").1.currently_playing_video = none ∧
    (flag_video stPlaying "b" "dirty").1.current_video_status = none ∧
    (show_playing (flag_video stPlaying "b" "dirty").1).2 =
      ["No video is currently playing"] := by
  have h := flag_playing_spec stPlaying "b" "dirty" videoBravo (by decide) rfl
  have h2 := h.2 videoBravo rfl rfl
  exact ⟨by decide, rfl, rfl, by rw [h.1]; rfl, h2.1, h2.2.1, h2.2.2⟩

/-- C10: flagging an existing, unflagged video that is not the currently
playing one (or when nothing is playing) leaves the playback state (current
video and status) unchanged; and `allow_video` never modifies the playback
state in any case. -/
theorem flag_allow_frame (st : PlayerState) (video_id flag_reason : String) (vid : Video)
    (hget : get_video st.video_library video_id = some vid)
    (hflag : vid.flag_reason = "")
    (hnc : ∀ cur, st.currently_playing_video = some cur → cur.video_id ≠ video_id) :
    ((flag_video st video_id flag_reason).1.currently_playing_video =
        st.currently_playing_video ∧
     (flag_video st video_id flag_reason).1.current_video_status =
        st.current_video_status) ∧
    (∀ (st2 : PlayerState) (w : String),
      (allow_video st2 w).1.currently_playing_video = st2.currently_playing_video ∧
      (allow_video st2 w).1.current_video_status = st2.current_video_status) := by
  constructor
  · cases hc : st.currently_playing_video with
    | none =>
      unfold flag_video
      rw [hget]
      simp [hflag, hc]
    | some cur0 =>
      have hb : (video_id == cur0.video_id) = false := by
        exact beq_eq_false_iff_ne.mpr (Ne.symm (hnc cur0 hc))
      unfold flag_video
      rw [hget]
      simp [hflag, hc, hb]
  · intro st2 w
    unfold allow_video
    cases hg : get_video st2.video_library w with
    | none => simp
    | some u =>
      by_cases hu : (u.flag_reason == "") = true
      · simp [hu]
      · simp [hu]

/-- Witness for C10: flagging "a" while "b" is playing leaves playback
untouched, and unflagging on a sample state does too. -/
theorem flag_allow_frame_witness :
    get_video stPlaying.video_library "a" = some videoAlpha ∧
    videoAlpha.flag_reason = "" ∧
    (flag_video stPlaying "a" "x").1.currently_playing_video =
      stPlaying.currently_playing_video ∧
    (flag_video stPlaying "a" "x").1.current_video_status =
      stPlaying.current_video_status ∧
    (allow_video stPlaying "a").1.currently_playing_video =
      stPlaying.currently_playing_video := by
  have h := flag_allow_frame stPlaying "a" "x" videoAlpha (by decide) rfl
    (by intro cur hcur; injection hcur with h0; rw [← h0]; decide)
  exact ⟨by decide, rfl, h.1.1, h.1.2, (h.2 stPlaying "a").1⟩

/-- C4: the sorted-display claim fails on the code.  On a catalog whose
enumeration order is "Bravo" then "Alpha", both searches number the results in
catalog order (Bravo first), not in the computed sorted-by-title order (Alpha
first): the sorted copy is bound to the misspelled `maching_videos` and never
used. -/
theorem search_display_unsorted :
    (search_videos stTwoVideos "a" "x").2 =
      ["Here are the results for a:", "1) Bravo (b) [music]", "2) Alpha (a) [music]",
       promptLine] ∧
    (search_videos_tag stTwoVideos "MUSIC" "x").2 =
      ["Here are the results for MUSIC:", "1) Bravo (b) [music]", "2) Alpha (a) [music]",
       promptLine] ∧
    sortByTitle (searchMatches stTwoVideos "a") = [videoAlpha, videoBravo] ∧
    searchMatches stTwoVideos "a" = [videoBravo, videoAlpha] := by
  decide

/-- On a non-empty match set, `search_videos` prints the listing and prompt and
then behaves as the selection step on the match list. -/
theorem search_videos_run (st : PlayerState) (search_term inputLine : String)
    (hm : searchMatches st search_term ≠ []) :
    search_videos st search_term inputLine =
      ((process_command st inputLine (searchMatches st search_term)).1,
       searchListing search_term (searchMatches st search_term) ++
         (process_command st inputLine (searchMatches st search_term)).2) := by
  have hlen : ¬ (searchMatches st search_term).length = 0 := by
    simpa [List.length_eq_zero] using hm
  unfold search_videos
  simp [hlen]

/-- C5: the post-search selection step over a result list of length N is a
silent no-op for any input that is not a decimal number in [1, N] — the state
is unchanged and nothing beyond the listing and prompt is printed — and for a
valid index it plays the corresponding video exactly as `play_video` does. -/
theorem search_selection_spec (st : PlayerState) (search_term inputLine : String)
    (hm : searchMatches st search_term ≠ []) :
    (toNatDigits inputLine = none →
      search_videos st search_term inputLine =
        (st, searchListing search_term (searchMatches st search_term))) ∧
    (∀ k, toNatDigits inputLine = some k →
      (k = 0 ∨ (searchMatches st search_term).length < k) →
      search_videos st search_term inputLine =
        (st, searchListing search_term (searchMatches st search_term))) ∧
    (∀ k video, toNatDigits inputLine = some k → 1 ≤ k →
      (searchMatches st search_term)[k - 1]? = some video →
      search_videos st search_term inputLine =
        ((play_video st video.video_id).1,
         searchListing search_term (searchMatches st search_term) ++
           (play_video st video.video_id).2)) := by
  have hrun := search_videos_run st search_term inputLine hm
  refine ⟨?_, ?_, ?_⟩
  · intro hn
    rw [hrun]
    unfold process_command
    rw [hn]
    simp
  · intro k hk hrange
    rw [hrun]
    unfold process_command
    rw [hk]
    rcases hrange with h0 | hgt
    · subst h0
      simp
    · have hk0 : ¬ k = 0 := by omega
      have hnone : (searchMatches st search_term)[k - 1]? = none := by
        rw [List.getElem?_eq_none]
        omega
      simp [hk0, hnone]
  · intro k video hk h1 hv
    rw [hrun]
    unfold process_command
    rw [hk]
    have hk0 : ¬ k = 0 := by omega
    simp [hk0, hv]

/-- Witness for C5: searching "a" finds two videos; the input "2" plays the
second listed video ("Alpha") exactly as `play_video` would. -/
theorem search_selection_spec_witness :
    searchMatches stTwoVideos "a" ≠ [] ∧
    toNatDigits "2" = some 2 ∧
    (searchMatches stTwoVideos "a")[2 - 1]? = some videoAlpha ∧
    search_videos stTwoVideos "a" "2" =
      ((play_video stTwoVideos videoAlpha.video_id).1,
       searchListing "a" (searchMatches stTwoVideos "a") ++
         (play_video stTwoVideos videoAlpha.video_id).2) := by
  have h := (search_selection_spec stTwoVideos "a" "2" (by decide)).2.2 2 videoAlpha
    (by decide) (by omega) (by decide)
  exact ⟨by decide, by decide, by decide, h⟩

/-- The playback invariant only depends on the playback fields. -/
theorem playbackInv_of_eq {a b : PlayerState} (h : PlaybackInv a)
    (hv : b.currently_playing_video = a.currently_playing_video)
    (hs : b.current_video_status = a.current_video_status) : PlaybackInv b := by
  unfold PlaybackInv at h ⊢
  rw [hv, hs]
  exact h

/-- `play_video` preserves the playback invariant. -/
theorem play_video_inv (st : PlayerState) (v : String) (h : PlaybackInv st) :
    PlaybackInv (play_video st v).1 := by
  unfold play_video
  cases hg : get_video st.video_library v with
  | none => exact h
  | some w =>
    by_cases hw : (w.flag_reason != "") = true
    · simpa [hw] using h
    · simp [hw, PlaybackInv]

/-- `stop_video` preserves the playback invariant. -/
theorem stop_video_inv (st : PlayerState) (h : PlaybackInv st) :
    PlaybackInv (stop_video st).1 := by
  unfold stop_video
  cases hc : st.currently_playing_video with
  | none => exact h
  | some cur => simp [PlaybackInv]

/-- `play_random_video` preserves the playback invariant. -/
theorem play_random_video_inv (st : PlayerState) (k : Nat) (h : PlaybackInv st) :
    PlaybackInv (play_random_video st k).1 := by
  unfold play_random_video
  by_cases h0 : (st.video_library.filter (fun video => video.flag_reason == "")).length = 0
  · simpa [h0] using h
  · simp only [h0, dite_false]
    exact play_video_inv st _ h

/-- `pause_video` preserves the playback invariant. -/
theorem pause_video_inv (st : PlayerState) (h : PlaybackInv st) :
    PlaybackInv (pause_video st).1 := by
  unfold pause_video
  cases hc : st.currently_playing_video with
  | none => exact h
  | some cur =>
    by_cases hs : st.current_video_status = some 0
    · simpa [hs] using h
    · simp [hs, PlaybackInv]

/-- `continue_video` preserves the playback invariant. -/
theorem continue_video_inv (st : PlayerState) (h : PlaybackInv st) :
    PlaybackInv (continue_video st).1 := by
  unfold continue_video
  cases hc : st.currently_playing_video with
  | none => exact h
  | some cur =>
    by_cases hs : st.current_video_status = some 1
    · simpa [hs] using h
    · simp [hs, PlaybackInv]

/-- The selection step preserves the playback invariant. -/
theorem process_command_inv (st : PlayerState) (command : String) (vs : List Video)
    (h : PlaybackInv st) : PlaybackInv (process_command st command vs).1 := by
  unfold process_command
  cases hn : toNatDigits command with
  | none => exact h
  | some k =>
    by_cases hk : k = 0
    · simpa [hk] using h
    · cases hv : vs[k - 1]? with
      | none => simpa [hk, hv] using h
      | some video =>
        simp only [hk, if_false, hv]
        exact play_video_inv st video.video_id h

/-- `search_videos` preserves the playback invariant. -/
theorem search_videos_inv (st : PlayerState) (search_term inputLine : String)
    (h : PlaybackInv st) : PlaybackInv (search_videos st search_term inputLine).1 := by
  unfold search_videos
  by_cases hm : (searchMatches st search_term).length = 0
  · simpa [hm] using h
  · simp only [hm, if_false]
    exact process_command_inv st inputLine (searchMatches st search_term) h

/-- `search_videos_tag` preserves the playback invariant. -/
theorem search_videos_tag_inv (st : PlayerState) (video_tag inputLine : String)
    (h : PlaybackInv st) : PlaybackInv (search_videos_tag st video_tag inputLine).1 := by
  unfold search_videos_tag
  by_cases hm : (searchTagMatches st video_tag).length = 0
  · simpa [hm] using h
  · simp only [hm, if_false]
    exact process_command_inv st inputLine (searchTagMatches st video_tag) h

/-- `flag_video` preserves the playback invariant. -/
theorem flag_video_inv (st : PlayerState) (video_id flag_reason : String)
    (h : PlaybackInv st) : PlaybackInv (flag_video st video_id flag_reason).1 := by
  unfold flag_video
  cases hg : get_video st.video_library video_id with
  | none => exact h
  | some w =>
    by_cases hw : (w.flag_reason != "") = true
    · simpa [hw] using h
    · cases hc : st.currently_playing_video with
      | none =>
        simp only [hw, if_false]
        exact playbackInv_of_eq h rfl rfl
      | some cur =>
        by_cases hb : (video_id == cur.video_id) = true
        · simp [hw, hb, stop_video, hc, PlaybackInv]
        · simp only [hw, hb, if_false]
          exact playbackInv_of_eq h rfl rfl

/-- `allow_video` preserves the playback invariant. -/
theorem allow_video_inv (st : PlayerState) (video_id : String)
    (h : PlaybackInv st) : PlaybackInv (allow_video st video_id).1 := by
  unfold allow_video
  cases hg : get_video st.video_library video_id with
  | none => exact h
  | some w =>
    by_cases hu : (w.flag_reason == "") = true
    · simpa [hu] using h
    · simp only [hu, if_false]
      exact playbackInv_of_eq h rfl rfl

/-- `create_playlist` does not touch the playback fields. -/
theorem create_playlist_playback (st : PlayerState) (n : String) :
    (create_playlist st n).1.currently_playing_video = st.currently_playing_video ∧
    (create_playlist st n).1.current_video_status = st.current_video_status := by
  unfold create_playlist
  split <;> exact ⟨rfl, rfl⟩

/-- `add_to_playlist` does not touch the playback fields. -/
theorem add_to_playlist_playback (st : PlayerState) (n v : String) :
    (add_to_playlist st n v).1.currently_playing_video = st.currently_playing_video ∧
    (add_to_playlist st n v).1.current_video_status = st.current_video_status := by
  unfold add_to_playlist
  split
  · exact ⟨rfl, rfl⟩
  · split
    · exact ⟨rfl, rfl⟩
    · split
      · exact ⟨rfl, rfl⟩
      · split <;> exact ⟨rfl, rfl⟩

/-- `show_all_playlists` does not touch the playback fields. -/
theorem show_all_playlists_playback (st : PlayerState) :
    (show_all_playlists st).1.currently_playing_video = st.currently_playing_video ∧
    (show_all_playlists st).1.current_video_status = st.current_video_status := by
  unfold show_all_playlists
  split <;> exact ⟨rfl, rfl⟩

/-- `show_playlist` does not touch the playback fields. -/
theorem show_playlist_playback (st : PlayerState) (n : String) :
    (show_playlist st n).1.currently_playing_video = st.currently_playing_video ∧
    (show_playlist st n).1.current_video_status = st.current_video_status := by
  unfold show_playlist
  split
  · exact ⟨rfl, rfl⟩
  · split <;> exact ⟨rfl, rfl⟩

/-- `remove_from_playlist` does not touch the playback fields. -/
theorem remove_from_playlist_playback (st : PlayerState) (n v : String) :
    (remove_from_playlist st n v).1.currently_playing_video = st.currently_playing_video ∧
    (remove_from_playlist st n v).1.current_video_status = st.current_video_status := by
  unfold remove_from_playlist
  split
  · exact ⟨rfl, rfl⟩
  · split
    · exact ⟨rfl, rfl⟩
    · split <;> exact ⟨rfl, rfl⟩

/-- `clear_playlist` does not touch the playback fields. -/
theorem clear_playlist_playback (st : PlayerState) (n : String) :
    (clear_playlist st n).1.currently_playing_video = st.currently_playing_video ∧
    (clear_playlist st n).1.current_video_status = st.current_video_status := by
  unfold clear_playlist
  split <;> exact ⟨rfl, rfl⟩

/-- `delete_playlist` does not touch the playback fields. -/
theorem delete_playlist_playback (st : PlayerState) (n : String) :
    (delete_playlist st n).1.currently_playing_video = st.currently_playing_video ∧
    (delete_playlist st n).1.current_video_status = st.current_video_status := by
  unfold delete_playlist
  split <;> exact ⟨rfl, rfl⟩

/-- `show_playing` does not touch the state at all. -/
theorem show_playing_playback (st : PlayerState) : (show_playing st).1 = st := by
  unfold show_playing
  split <;> rfl

/-- C9: every engine operation — play, stop, random play, pause, continue,
flag, unflag, show commands and all playlist operations — preserves the
playback invariant: the status is set iff a video is playing, and then it is
exactly PLAYING (`some 1`) or PAUSED (`some 0`). -/
theorem playback_status_inv (op : Op) (st : PlayerState) (h : PlaybackInv st) :
    PlaybackInv (applyOp op st).1 := by
  cases op with
  | play video_id => exact play_video_inv st video_id h
  | stop => exact stop_video_inv st h
  | playRandom k => exact play_random_video_inv st k h
  | pause => exact pause_video_inv st h
  | continueV => exact continue_video_inv st h
  | showPlaying =>
    exact playbackInv_of_eq h (by unfold applyOp; rw [show_playing_playback])
      (by unfold applyOp; rw [show_playing_playback])
  | createPlaylist n =>
    exact playbackInv_of_eq h (create_playlist_playback st n).1 (create_playlist_playback st n).2
  | addToPlaylist n v =>
    exact playbackInv_of_eq h (add_to_playlist_playback st n v).1 (add_to_playlist_playback st n v).2
  | showAllPlaylists =>
    exact playbackInv_of_eq h (show_all_playlists_playback st).1 (show_all_playlists_playback st).2
  | showPlaylist n =>
    exact playbackInv_of_eq h (show_playlist_playback st n).1 (show_playlist_playback st n).2
  | removeFromPlaylist n v =>
    exact playbackInv_of_eq h (remove_from_playlist_playback st n v).1 (remove_from_playlist_playback st n v).2
  | clearPlaylist n =>
    exact playbackInv_of_eq h (clear_playlist_playback st n).1 (clear_playlist_playback st n).2
  | deletePlaylist n =>
    exact playbackInv_of_eq h (delete_playlist_playback st n).1 (delete_playlist_playback st n).2
  | searchVideos term inputLine => exact search_videos_inv st term inputLine h
  | searchVideosTag tag inputLine => exact search_videos_tag_inv st tag inputLine h
  | flagVideo video_id reason => exact flag_video_inv st video_id reason h
  | allowVideo video_id => exact allow_video_inv st video_id h
  | showAllVideos => exact h
  | numberOfVideos => exact h

/-- Witness for C9: a state with "b" paused satisfies the invariant, and it is
preserved by playing "a". -/
theorem playback_status_inv_witness :
    PlaybackInv stPlaying ∧ PlaybackInv (applyOp (Op.play "a") stPlaying).1 := by
  have hinv : PlaybackInv stPlaying := by
    unfold PlaybackInv
    right
    exact ⟨by simp [stPlaying], Or.inr rfl⟩
  exact ⟨hinv, playback_status_inv (Op.play "a") stPlaying hinv⟩
